import Mathlib

/-!
Verification development for the RedInk web client's credential-renewal and
streaming subsystem.  The definitions below are shallow embeddings of the
TypeScript sources:

* the module-level single-flight slot `refreshPromise` and the axios
  response interceptor of `frontend/src/api/index.ts`;
* the auth store action `refreshToken` of `frontend/src/stores/auth.ts`
  together with the api helper `refresh` of `frontend/src/api/auth.ts`;
* the `SSEConnectionManager` class of `frontend/src/api/index.ts`
  (connect / setupEventListeners / handleConnectionError / buildErrorMessage /
  close) and the entry point `subscribeImageTask`;
* the token-expiry helpers `decodeToken`, `isTokenExpiringSoon` and
  `ensureValidToken` of `frontend/src/api/auth.ts`.

Asynchronous code is embedded as explicit state passing: every `await` in a
source function becomes a point where a list of externally interleaved
actions is applied to the state before the continuation runs.
-/

namespace RedInk

/-! ## String containment

JavaScript `String.prototype.includes`, used by the interceptor's
auth-endpoint check. -/

/-- Substring containment: some tail of `s` starts with `pat`. -/
def strContains (s pat : String) : Bool :=
  s.toList.tails.any (fun t => pat.toList.isPrefixOf t)

/-! ## Single-flight renewal window

Embeds the module-level slot `let refreshPromise: Promise<string|null> | null`
and its two kinds of clients:

* the response interceptor runs `if (!refreshPromise) refreshPromise = ...`
  and then awaits the shared promise, issuing the network call only when the
  slot was empty;
* `SSEConnectionManager.refreshToken` calls `authStore.refreshToken()`
  directly, which always issues one `POST /auth/refresh` network call and
  never consults the slot.

A renewal window is a run in which the pending promise never settles, so the
`.finally(() => refreshPromise = null)` clearing step does not occur. -/

/-- State of the module-level renewal slot plus a counter of how many actual
renewal network calls (`refreshApi` invocations) have been issued. -/
structure RenewState where
  refreshPromise : Bool
  refreshApiCalls : Nat
  deriving Repr, DecidableEq

/-- Initial state: no pending promise, no network calls issued. -/
def renewInit : RenewState :=
  { refreshPromise := false, refreshApiCalls := 0 }

/-- Kind of caller arriving at the renewal path during the window. -/
inductive RenewCaller where
  | interceptor
  | sse
  deriving Repr, DecidableEq

/-- Effect of one caller arriving at the renewal path.  The interceptor
creates the shared promise (one network call) only when the slot is empty;
the SSE manager's `refreshToken` bypasses the slot and always issues a call. -/
def renewArrive : RenewCaller → RenewState → RenewState
  | RenewCaller.interceptor, s =>
      if s.refreshPromise then s
      else { refreshPromise := true, refreshApiCalls := s.refreshApiCalls + 1 }
  | RenewCaller.sse, s =>
      { s with refreshApiCalls := s.refreshApiCalls + 1 }

/-- Run of one renewal window: the callers arrive in order and the pending
promise never settles in between. -/
def renewWindow (callers : List RenewCaller) (s : RenewState) : RenewState :=
  callers.foldl (fun t c => renewArrive c t) s

/-! ## Response interceptor of the general api client

Embeds the error branch of `apiClient.interceptors.response.use`. -/

/-- Check for the exempted auth endpoints, from `isAuthEndpoint` in the
interceptor. -/
def isAuthEndpoint (url : String) : Bool :=
  strContains url "/auth/login" ||
  strContains url "/auth/register" ||
  strContains url "/auth/refresh" ||
  strContains url "/auth/logout"

/-- Outgoing request configuration: url, the `_retry` marker (an absent field
is `false`), and the Authorization header. -/
structure AxiosRequest where
  url : String
  retryFlag : Bool
  authHeader : Option String
  deriving Repr, DecidableEq

/-- Outcome of the interceptor on an errored response: either the original
error is propagated (`Promise.reject(error)`) or the request is resubmitted
once with the marker set. -/
inductive InterceptorOutcome where
  | rejectOriginal
  | resubmit (req : AxiosRequest)
  deriving Repr, DecidableEq

/-- Result of one run of the interceptor error branch: the outcome plus
whether the auto-renew path (the shared `refreshPromise`) was entered. -/
structure InterceptorRun where
  outcome : InterceptorOutcome
  renewalTriggered : Bool
  deriving Repr, DecidableEq

/-- Error branch of the response interceptor.  `response` is the HTTP status
when a response exists, `req` the original request configuration when it
exists, and `refreshResult` the settled value of the awaited shared renewal
promise (`none` models a failed renewal). -/
def responseErrorInterceptor (response : Option Nat) (req : Option AxiosRequest)
    (refreshResult : Option String) : InterceptorRun :=
  match response, req with
  | some status, some r =>
      if status ≠ 401 then
        { outcome := InterceptorOutcome.rejectOriginal, renewalTriggered := false }
      else if r.retryFlag then
        { outcome := InterceptorOutcome.rejectOriginal, renewalTriggered := false }
      else if isAuthEndpoint r.url then
        { outcome := InterceptorOutcome.rejectOriginal, renewalTriggered := false }
      else
        match refreshResult with
        | none =>
            { outcome := InterceptorOutcome.rejectOriginal, renewalTriggered := true }
        | some tok =>
            { outcome := InterceptorOutcome.resubmit
                { url := r.url, retryFlag := true,
                  authHeader := some ("Bearer " ++ tok) },
              renewalTriggered := true }
  | _, _ =>
      { outcome := InterceptorOutcome.rejectOriginal, renewalTriggered := false }

/-! ## SSEConnectionManager

Embeds the class state and methods.  EventSource ready states are the
numbers used by the browser API: CONNECTING = 0, OPEN = 1, CLOSED = 2.
Each `await` inside `handleConnectionError` becomes a point where a list of
externally interleaved actions is applied; the transport is already
terminally closed there, so the only possible external action is the
caller-initiated `close()` of the manager. -/

/-- Observable state of one `SSEConnectionManager` instance, together with
counters for the externally visible effects: transports constructed
(`new EventSource`), renewal invocations (`this.refreshToken()`), stream
error reports (`this.onStreamError(...)`) and payload callbacks. -/
structure ManagerState where
  reconnectAttempts : Nat
  maxReconnectAttempts : Nat
  isClosed : Bool
  hasReceivedData : Bool
  eventSourceLive : Bool
  transportsCreated : Nat
  renewalCalls : Nat
  streamErrorCalls : Nat
  lastErrorMessage : Option String
  onProgressCalls : Nat
  onCompleteCalls : Nat
  onErrorCalls : Nat
  onFinishCalls : Nat
  deriving Repr, DecidableEq

/-- State of a freshly constructed manager: `reconnectAttempts = 0`,
`maxReconnectAttempts = 3`, `isClosed = false`, `hasReceivedData = false`,
no transport yet. -/
def initialManager : ManagerState :=
  { reconnectAttempts := 0, maxReconnectAttempts := 3, isClosed := false,
    hasReceivedData := false, eventSourceLive := false, transportsCreated := 0,
    renewalCalls := 0, streamErrorCalls := 0, lastErrorMessage := none,
    onProgressCalls := 0, onCompleteCalls := 0, onErrorCalls := 0,
    onFinishCalls := 0 }

namespace SSE

/-- Method `close()`: sets `isClosed = true` and closes and drops the live
transport.  Counters are untouched. -/
def close (s : ManagerState) : ManagerState :=
  { s with isClosed := true, eventSourceLive := false }

/-- Method `connect()`: throws when the manager is already closed, otherwise
constructs a new `EventSource` (with the freshly read stored token embedded
in the URL) and registers the listeners. -/
def connect (s : ManagerState) : Except String ManagerState :=
  if s.isClosed then Except.error "连接管理器已关闭"
  else Except.ok { s with transportsCreated := s.transportsCreated + 1,
                          eventSourceLive := true }

/-- External actions that can interleave at the `await` points of
`handleConnectionError`: only the caller-initiated `close()` (the spec's
`cancel()`); no payload event can fire there because the transport is
already terminally closed. -/
inductive ExtAction where
  | cancel
  deriving Repr, DecidableEq

/-- Effect of one external action. -/
def applyExt : ExtAction → ManagerState → ManagerState
  | ExtAction.cancel, s => close s

/-- Effect of a list of external actions, applied in order. -/
def applyExts (as : List ExtAction) (s : ManagerState) : ManagerState :=
  as.foldl (fun t a => applyExt a t) s

/-- Method `buildErrorMessage()`: the exhausted variant embeds the attempt
counter and lists the three plausible causes; the other variant is used when
renewal failed before the budget was reached. -/
def buildErrorMessage (s : ManagerState) : String :=
  if s.reconnectAttempts ≥ s.maxReconnectAttempts then
    "SSE 连接失败，已重试 " ++ toString s.reconnectAttempts ++
      " 次。可能原因：\n1. 身份验证已过期，请重新登录\n2. 任务不存在或已过期\n3. 网络连接不稳定\n\n建议：刷新页面后重试，或检查登录状态"
  else
    "SSE 连接失败。可能原因：\n1. 认证失败，请尝试重新登录\n2. 任务不存在或已过期  \n3. 网络连接问题\n\n请刷新页面后重试"

/-- Method `handleConnectionError(eventSource, event)`.

`readyState` is the transport state observed at entry.  `renewal` is the
value `await this.refreshToken()` settles to (`none` covers both a `null`
result and a caught exception).  `duringRenewal` and `duringDelay` are the
external actions interleaved while awaiting the renewal call and the fixed
1000 ms reconnect delay.  Source control flow:

* CONNECTING: the transport is retrying on its own, no action;
* CLOSED with `hasReceivedData`: graceful completion, `this.close()`;
* CLOSED with attempts below budget: await renewal; on a token, increment
  `reconnectAttempts`, close the old transport, await the delay, and
  construct a new transport only when `!this.isClosed`; on a failed renewal
  fall through to the error report;
* otherwise: report `buildErrorMessage()` once via `onStreamError` and
  `this.close()`. -/
def handleConnectionError (readyState : Nat) (renewal : Option String)
    (duringRenewal duringDelay : List ExtAction) (s : ManagerState) :
    ManagerState :=
  if readyState = 0 then s
  else if readyState = 2 then
    if s.hasReceivedData then close s
    else if s.reconnectAttempts < s.maxReconnectAttempts then
      let s1 := applyExts duringRenewal
        { s with renewalCalls := s.renewalCalls + 1 }
      match renewal with
      | some _ =>
          let s2 := { s1 with reconnectAttempts := s1.reconnectAttempts + 1,
                              eventSourceLive := false }
          let s3 := applyExts duringDelay s2
          if ¬ s3.isClosed then (connect s3).toOption.getD s3 else s3
      | none =>
          close { s1 with streamErrorCalls := s1.streamErrorCalls + 1,
                          lastErrorMessage := some (buildErrorMessage s1) }
    else
      close { s with streamErrorCalls := s.streamErrorCalls + 1,
                     lastErrorMessage := some (buildErrorMessage s) }
  else s

/-- Named payload events registered by `setupEventListeners`. -/
inductive SSEEventKind where
  | progress
  | complete
  | errorEvent
  | finish
  deriving Repr, DecidableEq

/-- Handler bodies of `setupEventListeners`.  `dataPresent` is the truthiness
of `e.data` (only checked by the domain-level error handler); `parseOk` is
whether `JSON.parse(e.data)` succeeds.  Every handler for progress, complete
and finish sets `hasReceivedData` first and only then parses; the dispatch
to the registered callback happens only on a successful parse, and a finish
event additionally calls `this.close()` after dispatching. -/
def handleEvent (kind : SSEEventKind) (dataPresent parseOk : Bool)
    (s : ManagerState) : ManagerState :=
  match kind with
  | SSEEventKind.progress =>
      let s1 := { s with hasReceivedData := true }
      if parseOk then { s1 with onProgressCalls := s1.onProgressCalls + 1 }
      else s1
  | SSEEventKind.complete =>
      let s1 := { s with hasReceivedData := true }
      if parseOk then { s1 with onCompleteCalls := s1.onCompleteCalls + 1 }
      else s1
  | SSEEventKind.errorEvent =>
      if dataPresent then
        let s1 := { s with hasReceivedData := true }
        if parseOk then { s1 with onErrorCalls := s1.onErrorCalls + 1 }
        else s1
      else s
  | SSEEventKind.finish =>
      let s1 := { s with hasReceivedData := true }
      if parseOk then close { s1 with onFinishCalls := s1.onFinishCalls + 1 }
      else s1

/-- Micro-steps of one event-handler body, used to state in which order the
observable operations of a handler occur. -/
inductive MicroStep where
  | setFlag
  | parseBody
  | dispatch
  | closeSession
  deriving Repr, DecidableEq

/-- Order of the observable operations inside each handler body, read off the
source: the flag assignment precedes the `JSON.parse` attempt, which precedes
the callback dispatch (and, for finish, the `this.close()` call). -/
def eventSteps (kind : SSEEventKind) (dataPresent parseOk : Bool) :
    List MicroStep :=
  match kind with
  | SSEEventKind.progress =>
      MicroStep.setFlag :: MicroStep.parseBody ::
        (if parseOk then [MicroStep.dispatch] else [])
  | SSEEventKind.complete =>
      MicroStep.setFlag :: MicroStep.parseBody ::
        (if parseOk then [MicroStep.dispatch] else [])
  | SSEEventKind.errorEvent =>
      if dataPresent then
        MicroStep.setFlag :: MicroStep.parseBody ::
          (if parseOk then [MicroStep.dispatch] else [])
      else []
  | SSEEventKind.finish =>
      MicroStep.setFlag :: MicroStep.parseBody ::
        (if parseOk then [MicroStep.dispatch, MicroStep.closeSession] else [])

end SSE

/-! ## Renewal call and auth store

Embeds `refresh()` of `frontend/src/api/auth.ts` and the store action
`useAuthStore.refreshToken` of `frontend/src/stores/auth.ts`. -/

/-- Response body of `POST /auth/refresh`: `{success, access_token?}` (the
`error?` field is never read by the embedded code paths). -/
structure RefreshResponse where
  success : Bool
  access_token : Option String
  deriving Repr, DecidableEq

/-- JavaScript truthiness of an optional string: absent and the empty string
are falsy. -/
def strTruthy : Option String → Bool
  | none => false
  | some s => ¬ s.isEmpty

/-- Outcome of the renewal HTTP round trip: a received response body, or a
transport error thrown by axios. -/
inductive RefreshCallResult where
  | ok (resp : RefreshResponse)
  | netError
  deriving Repr, DecidableEq

/-- Effect of api `refresh()` on the persisted token
(`localStorage[ACCESS_TOKEN_STORAGE_KEY]`): on `success && access_token` the
new token is saved; otherwise (including a transport error, which is thrown
before any save) the stored value is untouched. -/
def refreshApiStored (stored : Option String) : RefreshCallResult → Option String
  | RefreshCallResult.netError => stored
  | RefreshCallResult.ok resp =>
      if resp.success && strTruthy resp.access_token then resp.access_token
      else stored

/-- Credential Store state as seen by the auth store: the reactive fields of
`useAuthStore` plus the persisted token. -/
structure AuthStoreState where
  isAuthenticated : Bool
  accessToken : Option String
  hasUser : Bool
  storedToken : Option String
  deriving Repr, DecidableEq

/-- Store with every credential field cleared. -/
def clearedAuthStore : AuthStoreState :=
  { isAuthenticated := false, accessToken := none, hasUser := false,
    storedToken := none }

/-- Store action `refreshToken()`.  Returns the new state together with
`Except.ok` of the returned value (`some` token or `null`) or `Except.error`
when the transport failure is rethrown to the caller.  Source control flow:
on `result.success && result.access_token` keep the new token (api `refresh`
already persisted it) and return it; on a response without a usable token
clear every credential field and return `null`; on a thrown transport error
clear every credential field and rethrow. -/
def refreshToken (s : AuthStoreState) (result : RefreshCallResult) :
    AuthStoreState × Except Unit (Option String) :=
  match result with
  | RefreshCallResult.netError =>
      (clearedAuthStore, Except.error ())
  | RefreshCallResult.ok resp =>
      if resp.success && strTruthy resp.access_token then
        ({ s with accessToken := resp.access_token,
                  storedToken := refreshApiStored s.storedToken
                    (RefreshCallResult.ok resp),
                  isAuthenticated := if s.hasUser then true
                                     else s.isAuthenticated },
         Except.ok resp.access_token)
      else
        (clearedAuthStore, Except.ok none)

/-! ## Token expiry check and preventive renewal

Embeds `decodeToken` / `isTokenExpiringSoon` / `ensureValidToken` of
`frontend/src/api/auth.ts` and the pre-connect sequence of
`subscribeImageTask`.  The base64/JSON decoding done by `decodeToken` is
represented by the shape of the token: either undecodable (malformed JWT) or
a decoded payload carrying an optional `exp` claim. -/

/-- Decoded shape of a stored token.  `payload none` is a payload without an
`exp` claim; a claim equal to `0` is falsy in `!payload.exp` and also counts
as missing. -/
inductive TokenShape where
  | undecodable
  | payload (exp : Option Int)
  deriving Repr, DecidableEq

/-- Stored credential: the raw bearer string and what `decodeToken` yields
on it. -/
structure JwtToken where
  raw : String
  shape : TokenShape
  deriving Repr, DecidableEq

/-- Function `isTokenExpiringSoon(token, thresholdSeconds)` (source default
threshold: 300 seconds).  Missing token, undecodable token, and missing or
falsy `exp` claim all count as expiring; otherwise the remaining seconds are
compared strictly against the threshold. -/
def isTokenExpiringSoon (token : Option JwtToken) (now thresholdSeconds : Int) :
    Bool :=
  match token with
  | none => true
  | some t =>
      match t.shape with
      | TokenShape.undecodable => true
      | TokenShape.payload none => true
      | TokenShape.payload (some exp) =>
          if exp = 0 then true
          else exp - now < thresholdSeconds

/-- Steps observable while opening one stream subscription. -/
inductive ConnectStep where
  | renewalCall
  | transportConstructed
  deriving Repr, DecidableEq

/-- Function `ensureValidToken()`: with no stored token it returns `null`
without any renewal; with a token that is expiring soon (threshold 300) it
issues exactly one renewal call and returns the refreshed token on success
and `null` on failure (renewal errors are caught); with a still-valid token
it returns it unchanged with no renewal.  The second component is the list
of renewal calls issued. -/
def ensureValidToken (stored : Option JwtToken) (now : Int)
    (result : RefreshCallResult) : Option String × List ConnectStep :=
  match stored with
  | none => (none, [])
  | some t =>
      if isTokenExpiringSoon (some t) now 300 then
        match result with
        | RefreshCallResult.netError => (none, [ConnectStep.renewalCall])
        | RefreshCallResult.ok resp =>
            if resp.success && strTruthy resp.access_token then
              (resp.access_token, [ConnectStep.renewalCall])
            else (none, [ConnectStep.renewalCall])
      else (some t.raw, [])

/-- Entry point `subscribeImageTask`: awaits `ensureValidToken()` inside a
try/catch (failures are logged and non-fatal) and then calls
`manager.connect()` on a freshly constructed manager, which always
constructs the transport.  Returns the ordered observable steps. -/
def subscribeImageTask (stored : Option JwtToken) (now : Int)
    (result : RefreshCallResult) : List ConnectStep :=
  (ensureValidToken stored now result).2 ++ [ConnectStep.transportConstructed]

/-- Manager state right after the initial `connect()` of a fresh session:
one transport constructed, not closed, no payload yet. -/
def connectedState : ManagerState :=
  (SSE.connect initialManager).toOption.getD initialManager

/-- Scenario of testable property 6, budget 3: the initial transport closes
terminally before any payload; renewal succeeds and a reconnect follows,
three times; the transport after the third reconnect closes terminally
again. -/
def scenarioBudget : ManagerState :=
  SSE.handleConnectionError 2 none [] []
    (SSE.handleConnectionError 2 (some "t3") [] []
      (SSE.handleConnectionError 2 (some "t2") [] []
        (SSE.handleConnectionError 2 (some "t1") [] [] connectedState)))

/-! ## Helper lemmas -/

namespace SSE

theorem close_close (s : ManagerState) : close (close s) = close s := rfl

theorem applyExts_cons (a : ExtAction) (t : List ExtAction) (s : ManagerState) :
    applyExts (a :: t) s = applyExts t (applyExt a s) := rfl

theorem applyExts_eq (as : List ExtAction) (s : ManagerState) :
    applyExts as s = if as.isEmpty then s else close s := by
  induction as generalizing s with
  | nil => rfl
  | cons a t ih =>
      cases a
      rw [applyExts_cons, ih]
      cases t <;> simp [applyExt, close_close]

theorem applyExts_reconnectAttempts (as : List ExtAction) (s : ManagerState) :
    (applyExts as s).reconnectAttempts = s.reconnectAttempts := by
  rw [applyExts_eq]; split <;> rfl

theorem applyExts_maxReconnectAttempts (as : List ExtAction) (s : ManagerState) :
    (applyExts as s).maxReconnectAttempts = s.maxReconnectAttempts := by
  rw [applyExts_eq]; split <;> rfl

theorem applyExts_transportsCreated (as : List ExtAction) (s : ManagerState) :
    (applyExts as s).transportsCreated = s.transportsCreated := by
  rw [applyExts_eq]; split <;> rfl

theorem applyExts_renewalCalls (as : List ExtAction) (s : ManagerState) :
    (applyExts as s).renewalCalls = s.renewalCalls := by
  rw [applyExts_eq]; split <;> rfl

theorem applyExts_streamErrorCalls (as : List ExtAction) (s : ManagerState) :
    (applyExts as s).streamErrorCalls = s.streamErrorCalls := by
  rw [applyExts_eq]; split <;> rfl

theorem applyExts_isClosed_eq (as : List ExtAction) (s : ManagerState) :
    (applyExts as s).isClosed = (if as.isEmpty then s.isClosed else true) := by
  rw [applyExts_eq]; split <;> rfl

theorem applyExts_isClosed_of_true (as : List ExtAction) (s : ManagerState)
    (h : s.isClosed = true) : (applyExts as s).isClosed = true := by
  rw [applyExts_eq]; split
  · exact h
  · rfl

theorem applyExts_isClosed_of_mem (as : List ExtAction) (s : ManagerState)
    (h : ExtAction.cancel ∈ as) : (applyExts as s).isClosed = true := by
  rw [applyExts_eq]
  cases as with
  | nil => cases h
  | cons a t => rfl

theorem connect_getD_reconnectAttempts (s : ManagerState) :
    ((connect s).toOption.getD s).reconnectAttempts = s.reconnectAttempts := by
  unfold connect; split <;> rfl

theorem handleConnectionError_graceful (renewal : Option String)
    (dR dD : List ExtAction) (s : ManagerState) (h : s.hasReceivedData = true) :
    handleConnectionError 2 renewal dR dD s = close s := by
  simp [handleConnectionError, h]

theorem handleConnectionError_renew_ok (tok : String) (dR dD : List ExtAction)
    (s : ManagerState) (hrd : s.hasReceivedData = false)
    (hlt : s.reconnectAttempts < s.maxReconnectAttempts) :
    (handleConnectionError 2 (some tok) dR dD s).reconnectAttempts =
      s.reconnectAttempts + 1 := by
  simp only [handleConnectionError, hrd, hlt]
  norm_num
  split
  · rw [connect_getD_reconnectAttempts, applyExts_reconnectAttempts]
    simp [applyExts_reconnectAttempts]
  · rw [applyExts_reconnectAttempts]
    simp [applyExts_reconnectAttempts]

theorem handleConnectionError_renew_ok_cancelled (tok : String)
    (dR dD : List ExtAction) (s : ManagerState)
    (hrd : s.hasReceivedData = false)
    (hlt : s.reconnectAttempts < s.maxReconnectAttempts)
    (hmem : ExtAction.cancel ∈ dD) :
    (handleConnectionError 2 (some tok) dR dD s).transportsCreated =
      s.transportsCreated := by
  simp only [handleConnectionError, hrd, hlt]
  norm_num
  rw [if_neg (by simp [applyExts_isClosed_of_mem _ _ hmem])]
  rw [applyExts_transportsCreated]
  simp [applyExts_transportsCreated]

theorem handleConnectionError_closed_no_transport (readyState : Nat)
    (renewal : Option String) (dR dD : List ExtAction) (s : ManagerState)
    (hcl : s.isClosed = true) :
    (handleConnectionError readyState renewal dR dD s).transportsCreated =
      s.transportsCreated := by
  by_cases h0 : readyState = 0
  · simp [handleConnectionError, h0]
  by_cases h2 : readyState = 2
  swap
  · simp [handleConnectionError, h0, h2]
  subst h2
  by_cases hrd : s.hasReceivedData = true
  · rw [handleConnectionError_graceful _ _ _ _ hrd]; rfl
  by_cases hlt : s.reconnectAttempts < s.maxReconnectAttempts
  swap
  · simp [handleConnectionError, hrd, hlt, close]
  cases renewal with
  | none =>
      simp [handleConnectionError, hrd, hlt, close, applyExts_transportsCreated]
  | some tok =>
      simp only [handleConnectionError, hrd, hlt]
      norm_num
      split
      next h =>
        simp [applyExts_isClosed_eq, hcl] at h
      next h =>
        simp [applyExts_transportsCreated]

theorem handleConnectionError_cancel_no_transport (readyState : Nat)
    (renewal : Option String) (dR dD : List ExtAction) (s : ManagerState)
    (hmem : ExtAction.cancel ∈ dD) :
    (handleConnectionError readyState renewal dR dD s).transportsCreated =
      s.transportsCreated := by
  by_cases h0 : readyState = 0
  · simp [handleConnectionError, h0]
  by_cases h2 : readyState = 2
  swap
  · simp [handleConnectionError, h0, h2]
  subst h2
  by_cases hrd : s.hasReceivedData = true
  · rw [handleConnectionError_graceful _ _ _ _ hrd]; rfl
  replace hrd : s.hasReceivedData = false := by simpa using hrd
  by_cases hlt : s.reconnectAttempts < s.maxReconnectAttempts
  swap
  · simp [handleConnectionError, hrd, hlt, close]
  cases renewal with
  | none =>
      simp [handleConnectionError, hrd, hlt, close, applyExts_transportsCreated]
  | some tok =>
      exact handleConnectionError_renew_ok_cancelled tok dR dD s hrd hlt hmem

theorem handleConnectionError_preserves_closed (readyState : Nat)
    (renewal : Option String) (dR dD : List ExtAction) (s : ManagerState)
    (hcl : s.isClosed = true) :
    (handleConnectionError readyState renewal dR dD s).isClosed = true := by
  by_cases h0 : readyState = 0
  · simpa [handleConnectionError, h0] using hcl
  by_cases h2 : readyState = 2
  swap
  · simpa [handleConnectionError, h0, h2] using hcl
  subst h2
  by_cases hrd : s.hasReceivedData = true
  · rw [handleConnectionError_graceful _ _ _ _ hrd]; rfl
  replace hrd : s.hasReceivedData = false := by simpa using hrd
  by_cases hlt : s.reconnectAttempts < s.maxReconnectAttempts
  swap
  · simp [handleConnectionError, hrd, hlt, close]
  cases renewal with
  | none =>
      simp [handleConnectionError, hrd, hlt, close]
  | some tok =>
      simp only [handleConnectionError, hrd, hlt]
      norm_num
      split
      next h =>
        simp [applyExts_isClosed_eq, hcl] at h
      next h =>
        simp [applyExts_isClosed_eq, hcl]

theorem handleConnectionError_renew_failed (dR dD : List ExtAction)
    (s : ManagerState) (hrd : s.hasReceivedData = false)
    (hlt : s.reconnectAttempts < s.maxReconnectAttempts) :
    (handleConnectionError 2 none dR dD s).streamErrorCalls =
      s.streamErrorCalls + 1 ∧
    (handleConnectionError 2 none dR dD s).isClosed = true ∧
    (handleConnectionError 2 none dR dD s).transportsCreated =
      s.transportsCreated ∧
    (handleConnectionError 2 none dR dD s).reconnectAttempts =
      s.reconnectAttempts := by
  refine ⟨?_, ?_, ?_, ?_⟩ <;>
    simp [handleConnectionError, hrd, hlt, close, applyExts_streamErrorCalls,
      applyExts_transportsCreated, applyExts_reconnectAttempts]

end SSE

theorem renewArrive_interceptor_pending (s : RenewState)
    (h : s.refreshPromise = true) :
    renewArrive RenewCaller.interceptor s = s := by
  simp [renewArrive, h]

theorem renewWindow_interceptor_pending (m : Nat) (s : RenewState)
    (h : s.refreshPromise = true) :
    renewWindow (List.replicate m RenewCaller.interceptor) s = s := by
  induction m with
  | zero => rfl
  | succ k ih =>
      rw [List.replicate_succ,
        show renewWindow
            (RenewCaller.interceptor :: List.replicate k RenewCaller.interceptor) s =
          renewWindow (List.replicate k RenewCaller.interceptor)
            (renewArrive RenewCaller.interceptor s) from rfl,
        renewArrive_interceptor_pending s h]
      exact ih

theorem renewWindow_sse_calls (k : Nat) (s : RenewState) :
    (renewWindow (List.replicate k RenewCaller.sse) s).refreshApiCalls =
      s.refreshApiCalls + k := by
  induction k generalizing s with
  | zero => rfl
  | succ m ih =>
      rw [List.replicate_succ,
        show renewWindow (RenewCaller.sse :: List.replicate m RenewCaller.sse) s =
          renewWindow (List.replicate m RenewCaller.sse)
            (renewArrive RenewCaller.sse s) from rfl,
        ih]
      simp [renewArrive]
      omega

theorem interceptor_marked_reject (status : Nat) (r : AxiosRequest)
    (rr : Option String) (h : r.retryFlag = true) :
    responseErrorInterceptor (some status) (some r) rr =
      { outcome := InterceptorOutcome.rejectOriginal, renewalTriggered := false } := by
  by_cases h1 : status ≠ 401 <;> simp [responseErrorInterceptor, h1, h]

/-! ## Claims -/

/-- C1, counterexample.  The claim states that every concurrent renewal
inside one window, including renewals triggered by the streaming session
manager's reconnect path, awaits the same shared PendingRenewal, so exactly
one renewal network call is issued process-wide.  On the code this fails: a
window in which one middleware caller and one streaming-manager renewal
arrive issues two renewal network calls, because
`SSEConnectionManager.refreshToken` calls `authStore.refreshToken()`
directly and never consults the shared `refreshPromise` slot. -/
theorem C1_process_wide_single_flight_counterexample :
    (renewWindow [RenewCaller.interceptor, RenewCaller.sse]
      renewInit).refreshApiCalls = 2 ∧
    (renewWindow [RenewCaller.interceptor, RenewCaller.sse]
      renewInit).refreshApiCalls ≠ 1 := by
  decide

/-- C1, amended.  For every N ≥ 1 concurrent requests failing with an
authorization error in the Request Retry Middleware inside one renewal
window, exactly one renewal network call is issued among them: every such
caller awaits the same shared PendingRenewal.  Renewals triggered by the
streaming session manager's reconnect path bypass the shared slot: K such
renewals in one window issue K renewal network calls of their own. -/
theorem C1_middleware_single_flight (n k : Nat) (h : 1 ≤ n) :
    (renewWindow (List.replicate n RenewCaller.interceptor)
      renewInit).refreshApiCalls = 1 ∧
    (renewWindow (List.replicate k RenewCaller.sse)
      renewInit).refreshApiCalls = k := by
  constructor
  · cases n with
    | zero => omega
    | succ m =>
        rw [List.replicate_succ,
          show renewWindow
              (RenewCaller.interceptor :: List.replicate m RenewCaller.interceptor)
              renewInit =
            renewWindow (List.replicate m RenewCaller.interceptor)
              (renewArrive RenewCaller.interceptor renewInit) from rfl,
          renewWindow_interceptor_pending m _ (by rfl)]
        decide
  · rw [renewWindow_sse_calls]
    simp [renewInit]


/-- C1, witness for the amended theorem at N = 3 and K = 2. -/
theorem C1_middleware_single_flight_witness :
    1 ≤ 3 ∧
    ((renewWindow (List.replicate 3 RenewCaller.interceptor)
        renewInit).refreshApiCalls = 1 ∧
     (renewWindow (List.replicate 2 RenewCaller.sse)
        renewInit).refreshApiCalls = 2) :=
  ⟨by decide, C1_middleware_single_flight 3 2 (by decide)⟩

/-- C4: a request whose URL targets one of the exempted auth endpoints
(login, register, refresh, logout) has its 401 propagated unchanged and
never enters the auto-renew path. -/
theorem C4_auth_endpoints_exempt (status : Nat) (r : AxiosRequest)
    (rr : Option String) (h : isAuthEndpoint r.url = true) :
    responseErrorInterceptor (some status) (some r) rr =
      { outcome := InterceptorOutcome.rejectOriginal, renewalTriggered := false } := by
  by_cases h1 : status ≠ 401 <;> by_cases h2 : r.retryFlag <;>
    simp [responseErrorInterceptor, h1, h2, h]

/-- C4, witness: a 401 from the refresh endpoint itself is propagated
unchanged with no renewal triggered. -/
theorem C4_auth_endpoints_exempt_witness :
    isAuthEndpoint "/auth/refresh" = true ∧
    responseErrorInterceptor (some 401)
      (some { url := "/auth/refresh", retryFlag := false, authHeader := none })
      (some "tok") =
      { outcome := InterceptorOutcome.rejectOriginal, renewalTriggered := false } :=
  ⟨by decide,
   C4_auth_endpoints_exempt 401
     { url := "/auth/refresh", retryFlag := false, authHeader := none }
     (some "tok") (by decide)⟩

/-- C5: a request already carrying the RetryMarker that fails again with 401
is propagated unchanged and not retried a second time, and every resubmitted
request carries the marker, so every logical request is resubmitted at most
once. -/
theorem C5_retry_at_most_once (status : Nat) (r : AxiosRequest)
    (rr : Option String) (response2 : Option Nat) (req2 : Option AxiosRequest)
    (rr2 : Option String) (r2 : AxiosRequest)
    (hmarked : r.retryFlag = true)
    (hres : (responseErrorInterceptor response2 req2 rr2).outcome =
      InterceptorOutcome.resubmit r2) :
    responseErrorInterceptor (some status) (some r) rr =
      { outcome := InterceptorOutcome.rejectOriginal,
        renewalTriggered := false } ∧
    r2.retryFlag = true := by
  refine ⟨interceptor_marked_reject status r rr hmarked, ?_⟩
  match response2, req2 with
  | none, _ => simp [responseErrorInterceptor] at hres
  | some st2, none => simp [responseErrorInterceptor] at hres
  | some st2, some rq =>
      simp only [responseErrorInterceptor] at hres
      split_ifs at hres
      cases rr2 with
      | none => exact InterceptorOutcome.noConfusion hres
      | some tok =>
          injection hres with h2
          rw [← h2]

/-- C5, witness: a marked request is rejected, and the request resubmitted
for an unmarked one carries the marker. -/
theorem C5_retry_at_most_once_witness :
    ({ url := "/outline", retryFlag := true,
       authHeader := none : AxiosRequest }).retryFlag = true ∧
    (responseErrorInterceptor (some 401)
      (some { url := "/outline", retryFlag := false, authHeader := none })
      (some "tok")).outcome =
      InterceptorOutcome.resubmit
        { url := "/outline", retryFlag := true,
          authHeader := some ("Bearer " ++ "tok") } ∧
    (responseErrorInterceptor (some 401)
      (some { url := "/outline", retryFlag := true, authHeader := none })
      (some "tok2") =
      { outcome := InterceptorOutcome.rejectOriginal,
        renewalTriggered := false } ∧
     ({ url := "/outline", retryFlag := true,
        authHeader := some ("Bearer " ++ "tok") : AxiosRequest }).retryFlag = true) :=
  ⟨by decide, by decide,
   C5_retry_at_most_once 401
     { url := "/outline", retryFlag := true, authHeader := none }
     (some "tok2") (some 401)
     (some { url := "/outline", retryFlag := false, authHeader := none })
     (some "tok")
     { url := "/outline", retryFlag := true, authHeader := some ("Bearer " ++ "tok") }
     (by decide) (by decide)⟩

/-- C6: if `hasReceivedPayload` is true when the transport signals a
terminal close, the session ends gracefully: it equals `close` of the state
(resources released), with the attempt counter, renewal count, transport
count and stream-error count all unchanged. -/
theorem C6_graceful_close (renewal : Option String)
    (dR dD : List SSE.ExtAction) (s : ManagerState)
    (h : s.hasReceivedData = true) :
    SSE.handleConnectionError 2 renewal dR dD s = SSE.close s ∧
    (SSE.handleConnectionError 2 renewal dR dD s).reconnectAttempts =
      s.reconnectAttempts ∧
    (SSE.handleConnectionError 2 renewal dR dD s).renewalCalls =
      s.renewalCalls ∧
    (SSE.handleConnectionError 2 renewal dR dD s).transportsCreated =
      s.transportsCreated ∧
    (SSE.handleConnectionError 2 renewal dR dD s).streamErrorCalls =
      s.streamErrorCalls := by
  have e := SSE.handleConnectionError_graceful renewal dR dD s h
  rw [e]
  exact ⟨rfl, rfl, rfl, rfl, rfl⟩

/-- C6, witness at a session that has received one progress payload. -/
theorem C6_graceful_close_witness :
    (SSE.handleEvent SSE.SSEEventKind.progress true true
      connectedState).hasReceivedData = true ∧
    SSE.handleConnectionError 2 (some "tok") [] []
      (SSE.handleEvent SSE.SSEEventKind.progress true true connectedState) =
      SSE.close (SSE.handleEvent SSE.SSEEventKind.progress true true
        connectedState) ∧
    (SSE.handleConnectionError 2 (some "tok") [] []
      (SSE.handleEvent SSE.SSEEventKind.progress true true
        connectedState)).reconnectAttempts =
      (SSE.handleEvent SSE.SSEEventKind.progress true true
        connectedState).reconnectAttempts :=
  ⟨by decide,
   (C6_graceful_close (some "tok") [] []
     (SSE.handleEvent SSE.SSEEventKind.progress true true connectedState)
     (by decide)).1,
   (C6_graceful_close (some "tok") [] []
     (SSE.handleEvent SSE.SSEEventKind.progress true true connectedState)
     (by decide)).2.1⟩

/-- C9: the renewal operation's effect on the Credential Store is determined
by its outcome: on success the store holds the new credential and the new
credential is returned; on semantic failure (response received but no usable
token) every credential field is cleared and `null` is returned; on a
transport error the failure is rethrown to the caller. -/
theorem C9_refresh_store_effect (s : AuthStoreState) (resp : RefreshResponse)
    (hok : (resp.success && strTruthy resp.access_token) = true)
    (resp2 : RefreshResponse)
    (hfail : (resp2.success && strTruthy resp2.access_token) = false) :
    ((refreshToken s (RefreshCallResult.ok resp)).1.storedToken =
        resp.access_token ∧
     (refreshToken s (RefreshCallResult.ok resp)).1.accessToken =
        resp.access_token ∧
     (refreshToken s (RefreshCallResult.ok resp)).2 =
        Except.ok resp.access_token) ∧
    refreshToken s (RefreshCallResult.ok resp2) =
      (clearedAuthStore, Except.ok none) ∧
    refreshToken s RefreshCallResult.netError =
      (clearedAuthStore, Except.error ()) := by
  refine ⟨⟨?_, ?_, ?_⟩, ?_, rfl⟩ <;>
    simp [refreshToken, refreshApiStored, hok, hfail]

/-- C9, witness: a usable response updates the store, an unusable one clears
it, a transport error clears and rethrows. -/
theorem C9_refresh_store_effect_witness :
    ((({ isAuthenticated := true, accessToken := some "old",
         hasUser := true, storedToken := some "old" :
         AuthStoreState }).isAuthenticated = true) ∧
     ({ success := true, access_token := some "new" :
        RefreshResponse }).success = true) ∧
    ((refreshToken
        { isAuthenticated := true, accessToken := some "old",
          hasUser := true, storedToken := some "old" }
        (RefreshCallResult.ok { success := true, access_token := some "new" })).1.storedToken =
        some "new" ∧
     (refreshToken
        { isAuthenticated := true, accessToken := some "old",
          hasUser := true, storedToken := some "old" }
        (RefreshCallResult.ok { success := true, access_token := some "new" })).1.accessToken =
        some "new" ∧
     (refreshToken
        { isAuthenticated := true, accessToken := some "old",
          hasUser := true, storedToken := some "old" }
        (RefreshCallResult.ok { success := true, access_token := some "new" })).2 =
        Except.ok (some "new")) ∧
    refreshToken
      { isAuthenticated := true, accessToken := some "old",
        hasUser := true, storedToken := some "old" }
      (RefreshCallResult.ok { success := true, access_token := none }) =
      (clearedAuthStore, Except.ok none) ∧
    refreshToken
      { isAuthenticated := true, accessToken := some "old",
        hasUser := true, storedToken := some "old" }
      RefreshCallResult.netError =
      (clearedAuthStore, Except.error ()) :=
  ⟨⟨by decide, by decide⟩,
   C9_refresh_store_effect
     { isAuthenticated := true, accessToken := some "old",
       hasUser := true, storedToken := some "old" }
     { success := true, access_token := some "new" } (by decide)
     { success := true, access_token := none } (by decide)⟩

/-- C2, counterexample.  The claim states that the closed flag is checked at
the start of every asynchronous continuation of the reconnect path,
including immediately after the renewal call returns, so that a cancel()
landing during the renewal await prevents the attempt counter from
increasing.  On the code this fails: `handleConnectionError` increments
`reconnectAttempts` right after the renewal await without re-reading
`isClosed`, so a session cancelled while the renewal call was in flight
still has its counter increased from 0 to 1. -/
theorem C2_post_renewal_check_counterexample :
    connectedState.reconnectAttempts = 0 ∧
    (SSE.handleConnectionError 2 (some "tok") [SSE.ExtAction.cancel] []
      connectedState).isClosed = true ∧
    (SSE.handleConnectionError 2 (some "tok") [SSE.ExtAction.cancel] []
      connectedState).reconnectAttempts = 1 := by
  decide

/-- C2, amended.  The attempt counter increases only when the terminal close
is handled with `hasReceivedPayload` false, the counter below the budget and
the renewal yielding a token, and then by exactly one; the closed flag is
checked only after the fixed reconnect delay (post-delay), not after the
renewal call returns, so a cancel() during the renewal await does not
prevent the increment (it prevents only the construction of a new
transport). -/
theorem C2_attempt_counter_guard (readyState : Nat) (renewal : Option String)
    (dR dD : List SSE.ExtAction) (s : ManagerState)
    (h : (SSE.handleConnectionError readyState renewal dR dD s).reconnectAttempts ≠
      s.reconnectAttempts) :
    readyState = 2 ∧ s.hasReceivedData = false ∧
    s.reconnectAttempts < s.maxReconnectAttempts ∧ renewal.isSome = true ∧
    (SSE.handleConnectionError readyState renewal dR dD s).reconnectAttempts =
      s.reconnectAttempts + 1 := by
  by_cases h0 : readyState = 0
  · exact absurd (by simp [SSE.handleConnectionError, h0]) h
  by_cases h2 : readyState = 2
  swap
  · exact absurd (by simp [SSE.handleConnectionError, h0, h2]) h
  subst h2
  by_cases hrd : s.hasReceivedData = true
  · exact absurd
      (by rw [SSE.handleConnectionError_graceful renewal dR dD s hrd]; rfl) h
  replace hrd : s.hasReceivedData = false := by simpa using hrd
  by_cases hlt : s.reconnectAttempts < s.maxReconnectAttempts
  swap
  · exact absurd
      (by simp [SSE.handleConnectionError, hrd, hlt, SSE.close]) h
  cases renewal with
  | none =>
      exact absurd (by
        simp [SSE.handleConnectionError, hrd, hlt, SSE.close,
          SSE.applyExts_reconnectAttempts]) h
  | some tok =>
      exact ⟨rfl, hrd, hlt, rfl,
        SSE.handleConnectionError_renew_ok tok dR dD s hrd hlt⟩

/-- C2, witness for the amended theorem: a run that does increment (renewal
succeeded, fresh session) satisfies exactly the entry conditions. -/
theorem C2_attempt_counter_guard_witness :
    (SSE.handleConnectionError 2 (some "tok") [SSE.ExtAction.cancel] []
      connectedState).reconnectAttempts ≠ connectedState.reconnectAttempts ∧
    ((2 : Nat) = 2 ∧ connectedState.hasReceivedData = false ∧
     connectedState.reconnectAttempts < connectedState.maxReconnectAttempts ∧
     (some "tok").isSome = true ∧
     (SSE.handleConnectionError 2 (some "tok") [SSE.ExtAction.cancel] []
       connectedState).reconnectAttempts =
       connectedState.reconnectAttempts + 1) :=
  ⟨by decide,
   C2_attempt_counter_guard 2 (some "tok") [SSE.ExtAction.cancel] []
     connectedState (by decide)⟩

/-- C3: a cancel() that lands during the pending reconnect delay makes the
scheduled continuation observe `closed = true` and construct no new
transport; and on a session that is already closed, the error handler never
constructs a transport, stays closed, and a direct `connect()` throws. -/
theorem C3_cancel_never_new_transport (readyState : Nat)
    (renewal : Option String) (dR dD : List SSE.ExtAction)
    (s t : ManagerState) (hmem : SSE.ExtAction.cancel ∈ dD)
    (hcl : t.isClosed = true) :
    (SSE.handleConnectionError readyState renewal dR dD s).transportsCreated =
      s.transportsCreated ∧
    (SSE.handleConnectionError readyState renewal dR dD t).transportsCreated =
      t.transportsCreated ∧
    (SSE.handleConnectionError readyState renewal dR dD t).isClosed = true ∧
    SSE.connect t = Except.error "连接管理器已关闭" :=
  ⟨SSE.handleConnectionError_cancel_no_transport readyState renewal dR dD s hmem,
   SSE.handleConnectionError_closed_no_transport readyState renewal dR dD t hcl,
   SSE.handleConnectionError_preserves_closed readyState renewal dR dD t hcl,
   by simp [SSE.connect, hcl]⟩

/-- C3, witness: a fresh session cancelled during the reconnect delay, and a
closed session hit by a late delayed callback. -/
theorem C3_cancel_never_new_transport_witness :
    SSE.ExtAction.cancel ∈ [SSE.ExtAction.cancel] ∧
    (SSE.close connectedState).isClosed = true ∧
    ((SSE.handleConnectionError 2 (some "tok") [] [SSE.ExtAction.cancel]
        connectedState).transportsCreated = connectedState.transportsCreated ∧
     (SSE.handleConnectionError 2 (some "tok") [] [SSE.ExtAction.cancel]
        (SSE.close connectedState)).transportsCreated =
       (SSE.close connectedState).transportsCreated ∧
     (SSE.handleConnectionError 2 (some "tok") [] [SSE.ExtAction.cancel]
        (SSE.close connectedState)).isClosed = true ∧
     SSE.connect (SSE.close connectedState) =
       Except.error "连接管理器已关闭") :=
  ⟨by decide, by decide,
   C3_cancel_never_new_transport 2 (some "tok") [] [SSE.ExtAction.cancel]
     connectedState (SSE.close connectedState) (by decide) (by decide)⟩

/-- C7: with attempt budget 3, after the initial transport and three
renew-and-reconnect rounds each ending in a terminal close before any
payload, the fourth terminal close reports the stream error exactly once,
schedules no further reconnect (no renewal call, no transport, counter
still 3), closes the session, and the diagnostic message embeds the attempt
count and the three plausible causes; and a failed renewal during any
reconnect falls through to this error-reporting branch immediately. -/
theorem C7_budget_exhausted (s : ManagerState) (dR dD : List SSE.ExtAction)
    (hrd : s.hasReceivedData = false)
    (hlt : s.reconnectAttempts < s.maxReconnectAttempts) :
    (scenarioBudget.streamErrorCalls = 1 ∧
     scenarioBudget.reconnectAttempts = 3 ∧
     scenarioBudget.renewalCalls = 3 ∧
     scenarioBudget.transportsCreated = 4 ∧
     scenarioBudget.isClosed = true ∧
     scenarioBudget.lastErrorMessage =
       some ("SSE 连接失败，已重试 " ++ toString (3 : Nat) ++
         " 次。可能原因：\n1. 身份验证已过期，请重新登录\n2. 任务不存在或已过期\n3. 网络连接不稳定\n\n建议：刷新页面后重试，或检查登录状态")) ∧
    ((SSE.handleConnectionError 2 none dR dD s).streamErrorCalls =
        s.streamErrorCalls + 1 ∧
     (SSE.handleConnectionError 2 none dR dD s).isClosed = true ∧
     (SSE.handleConnectionError 2 none dR dD s).transportsCreated =
        s.transportsCreated ∧
     (SSE.handleConnectionError 2 none dR dD s).reconnectAttempts =
        s.reconnectAttempts) :=
  ⟨by decide, SSE.handleConnectionError_renew_failed dR dD s hrd hlt⟩

/-- C7, witness: the renewal-failure branch applied to a fresh session. -/
theorem C7_budget_exhausted_witness :
    connectedState.hasReceivedData = false ∧
    connectedState.reconnectAttempts < connectedState.maxReconnectAttempts ∧
    scenarioBudget.streamErrorCalls = 1 ∧
    (SSE.handleConnectionError 2 none [] [] connectedState).streamErrorCalls =
      connectedState.streamErrorCalls + 1 :=
  ⟨by decide, by decide,
   (C7_budget_exhausted connectedState [] [] (by decide) (by decide)).1.1,
   (C7_budget_exhausted connectedState [] [] (by decide) (by decide)).2.1⟩

/-- C8: with a stored credential expiring 120 seconds from now and the
default 300 second threshold, opening a stream issues exactly one preventive
renewal before the transport is constructed; with 600 seconds left no
preventive renewal happens; a missing or unparseable expiry claim counts as
expiring; and a failed preventive renewal is non-fatal: the transport is
still constructed exactly once, last. -/
theorem C8_preventive_renewal (now : Int) (raw : String)
    (result : RefreshCallResult) (stored : Option JwtToken) (h : 0 ≤ now) :
    subscribeImageTask
        (some { raw := raw, shape := TokenShape.payload (some (now + 120)) })
        now result =
      [ConnectStep.renewalCall, ConnectStep.transportConstructed] ∧
    subscribeImageTask
        (some { raw := raw, shape := TokenShape.payload (some (now + 600)) })
        now result =
      [ConnectStep.transportConstructed] ∧
    isTokenExpiringSoon (some { raw := raw, shape := TokenShape.undecodable })
      now 300 = true ∧
    isTokenExpiringSoon (some { raw := raw, shape := TokenShape.payload none })
      now 300 = true ∧
    (subscribeImageTask stored now RefreshCallResult.netError).count
      ConnectStep.transportConstructed = 1 ∧
    (subscribeImageTask stored now RefreshCallResult.netError).getLast? =
      some ConnectStep.transportConstructed := by
  have h120 : isTokenExpiringSoon
      (some { raw := raw, shape := TokenShape.payload (some (now + 120)) })
      now 300 = true := by
    simp only [isTokenExpiringSoon]
    rw [if_neg (by omega)]
    simp only [decide_eq_true_eq]
    omega
  have h600 : isTokenExpiringSoon
      (some { raw := raw, shape := TokenShape.payload (some (now + 600)) })
      now 300 = false := by
    simp only [isTokenExpiringSoon]
    rw [if_neg (by omega)]
    simp only [decide_eq_false_iff_not]
    omega
  refine ⟨?_, ?_, by simp [isTokenExpiringSoon],
    by simp [isTokenExpiringSoon], ?_, ?_⟩
  · simp only [subscribeImageTask, ensureValidToken, h120]
    cases result with
    | netError => rfl
    | ok resp =>
        by_cases hr : (resp.success && strTruthy resp.access_token) = true <;>
          simp [hr]
  · simp [subscribeImageTask, ensureValidToken, h600]
  · cases stored with
    | none => rfl
    | some t =>
        by_cases he : isTokenExpiringSoon (some t) now 300 = true <;>
          simp [subscribeImageTask, ensureValidToken, he]
  · cases stored with
    | none => rfl
    | some t =>
        by_cases he : isTokenExpiringSoon (some t) now 300 = true <;>
          simp [subscribeImageTask, ensureValidToken, he]

/-- C8, witness at a concrete clock value and a stored undecodable token. -/
theorem C8_preventive_renewal_witness :
    (0 : Int) ≤ 1700000000 ∧
    subscribeImageTask
        (some { raw := "tok", shape := TokenShape.payload (some (1700000000 + 120)) })
        1700000000 RefreshCallResult.netError =
      [ConnectStep.renewalCall, ConnectStep.transportConstructed] ∧
    subscribeImageTask
        (some { raw := "tok", shape := TokenShape.payload (some (1700000000 + 600)) })
        1700000000 RefreshCallResult.netError =
      [ConnectStep.transportConstructed] ∧
    isTokenExpiringSoon (some { raw := "tok", shape := TokenShape.undecodable })
      1700000000 300 = true ∧
    (subscribeImageTask (some { raw := "tok", shape := TokenShape.undecodable })
      1700000000 RefreshCallResult.netError).getLast? =
      some ConnectStep.transportConstructed :=
  ⟨by decide,
   (C8_preventive_renewal 1700000000 "tok" RefreshCallResult.netError
     (some { raw := "tok", shape := TokenShape.undecodable }) (by decide)).1,
   (C8_preventive_renewal 1700000000 "tok" RefreshCallResult.netError
     (some { raw := "tok", shape := TokenShape.undecodable }) (by decide)).2.1,
   (C8_preventive_renewal 1700000000 "tok" RefreshCallResult.netError
     (some { raw := "tok", shape := TokenShape.undecodable }) (by decide)).2.2.1,
   (C8_preventive_renewal 1700000000 "tok" RefreshCallResult.netError
     (some { raw := "tok", shape := TokenShape.undecodable }) (by decide)).2.2.2.2.2⟩

/-- C10: every progress, complete and finish handler sets the received-data
flag before attempting to parse the body, so an event whose body fails to
parse dispatches no callback yet still counts as received payload, and a
subsequent terminal close is handled as graceful completion: no renewal, no
new transport, attempt counter unchanged. -/
theorem C10_payload_flag_before_parse (kind : SSE.SSEEventKind)
    (dataPresent parseOk : Bool) (s : ManagerState) (renewal : Option String)
    (dR dD : List SSE.ExtAction)
    (h : kind = SSE.SSEEventKind.progress ∨ kind = SSE.SSEEventKind.complete ∨
      kind = SSE.SSEEventKind.finish) :
    (SSE.eventSteps kind dataPresent parseOk).take 2 =
      [SSE.MicroStep.setFlag, SSE.MicroStep.parseBody] ∧
    (SSE.handleEvent kind dataPresent parseOk s).hasReceivedData = true ∧
    (parseOk = false →
      ((SSE.handleEvent kind dataPresent parseOk s).onProgressCalls =
          s.onProgressCalls ∧
       (SSE.handleEvent kind dataPresent parseOk s).onCompleteCalls =
          s.onCompleteCalls ∧
       (SSE.handleEvent kind dataPresent parseOk s).onErrorCalls =
          s.onErrorCalls ∧
       (SSE.handleEvent kind dataPresent parseOk s).onFinishCalls =
          s.onFinishCalls) ∧
      SSE.handleConnectionError 2 renewal dR dD
          (SSE.handleEvent kind dataPresent parseOk s) =
        SSE.close (SSE.handleEvent kind dataPresent parseOk s) ∧
      (SSE.handleConnectionError 2 renewal dR dD
          (SSE.handleEvent kind dataPresent parseOk s)).reconnectAttempts =
        s.reconnectAttempts ∧
      (SSE.handleConnectionError 2 renewal dR dD
          (SSE.handleEvent kind dataPresent parseOk s)).renewalCalls =
        s.renewalCalls ∧
      (SSE.handleConnectionError 2 renewal dR dD
          (SSE.handleEvent kind dataPresent parseOk s)).transportsCreated =
        s.transportsCreated) := by
  have hflag : (SSE.handleEvent kind dataPresent parseOk s).hasReceivedData =
      true := by
    rcases h with rfl | rfl | rfl <;> cases parseOk <;>
      simp [SSE.handleEvent, SSE.close]
  refine ⟨?_, hflag, ?_⟩
  · rcases h with rfl | rfl | rfl <;> rfl
  · intro hpf
    subst hpf
    have hg := SSE.handleConnectionError_graceful renewal dR dD _ hflag
    refine ⟨?_, hg, ?_, ?_, ?_⟩
    · rcases h with rfl | rfl | rfl <;> simp [SSE.handleEvent]
    · rw [hg]; rcases h with rfl | rfl | rfl <;> simp [SSE.handleEvent, SSE.close]
    · rw [hg]; rcases h with rfl | rfl | rfl <;> simp [SSE.handleEvent, SSE.close]
    · rw [hg]; rcases h with rfl | rfl | rfl <;> simp [SSE.handleEvent, SSE.close]

/-- C10, witness: a progress event with an unparseable body followed by a
terminal close. -/
theorem C10_payload_flag_before_parse_witness :
    (SSE.eventSteps SSE.SSEEventKind.progress true false).take 2 =
      [SSE.MicroStep.setFlag, SSE.MicroStep.parseBody] ∧
    (SSE.handleEvent SSE.SSEEventKind.progress true false
      connectedState).hasReceivedData = true ∧
    SSE.handleConnectionError 2 none [] []
        (SSE.handleEvent SSE.SSEEventKind.progress true false connectedState) =
      SSE.close (SSE.handleEvent SSE.SSEEventKind.progress true false
        connectedState) ∧
    (SSE.handleConnectionError 2 none [] []
        (SSE.handleEvent SSE.SSEEventKind.progress true false
          connectedState)).renewalCalls = connectedState.renewalCalls :=
  ⟨(C10_payload_flag_before_parse SSE.SSEEventKind.progress true false
      connectedState none [] [] (Or.inl rfl)).1,
   (C10_payload_flag_before_parse SSE.SSEEventKind.progress true false
      connectedState none [] [] (Or.inl rfl)).2.1,
   ((C10_payload_flag_before_parse SSE.SSEEventKind.progress true false
      connectedState none [] [] (Or.inl rfl)).2.2 rfl).2.1,
   ((C10_payload_flag_before_parse SSE.SSEEventKind.progress true false
      connectedState none [] [] (Or.inl rfl)).2.2 rfl).2.2.2.1⟩

end RedInk
